import Mathlib

/-
Shallow embedding of the travel-agent repository's workflow core:
the resilient LLM call wrapper (src/agents/base_agent.py), the four
stage agents (src/agents/*.py), the LangGraph orchestrator
(src/src/travel_agent/core/orchestrator.py), and the background task
bridge of the Streamlit app (src/app.py).

Conventions: Python strings are Lean String; Python float delays are
modelled as rationals; the external LLM is an oracle parameter
(per-attempt outcome for the wrapper, prompt-to-response function for
the success-path pipeline); exceptions become explicit result values.
-/

namespace TravelAgent

/- ### String utilities mirroring Python's `in` and `str.lower()` -/

/-- Python `pat in s` restricted to a list of characters: does `pat`
occur as a prefix of `hay`? -/
def strStartsWith : List Char → List Char → Bool
  | _, [] => true
  | [], _ :: _ => false
  | a :: as, b :: bs => a == b && strStartsWith as bs

/-- Python `pat in s` on character lists: does `pat` occur as a
contiguous substring of `hay`? -/
def hasSub : List Char → List Char → Bool
  | [], pat => strStartsWith [] pat
  | a :: rest, pat => strStartsWith (a :: rest) pat || hasSub rest pat

/-- Python `pat in s` on strings. -/
def containsSub (s pat : String) : Bool := hasSub s.data pat.data

/-- Python `s.lower()` (ASCII case folding; the error-message markers
inspected by the code are all ASCII). -/
def lowerStr (s : String) : String := ⟨s.data.map Char.toLower⟩

/- ### Resilient call wrapper: BaseAgent._call_llm
(src/agents/base_agent.py, lines 49-179) -/

/-- Rate-limit classification of a lowered error message
(base_agent.py lines 105-111). -/
def isRateLimitStr (errorStr : String) : Bool :=
  containsSub errorStr "429" ||
  containsSub errorStr "resource exhausted" ||
  containsSub errorStr "quota exceeded" ||
  containsSub errorStr "rate limit" ||
  containsSub errorStr "too many requests"

/-- Retryable classification of a lowered error message
(base_agent.py lines 114-120). -/
def isRetryableStr (errorStr : String) : Bool :=
  isRateLimitStr errorStr ||
  containsSub errorStr "503" ||
  containsSub errorStr "500" ||
  containsSub errorStr "timeout" ||
  containsSub errorStr "deadline exceeded"

/-- Rate-limit classification of a raw exception message: the code
first lowers the message (`error_str = str(e).lower()`, line 102). -/
def isRateLimit (msg : String) : Bool := isRateLimitStr (lowerStr msg)

/-- Retryable classification of a raw exception message. -/
def isRetryable (msg : String) : Bool := isRetryableStr (lowerStr msg)

/-- Outcome of `_call_llm`: a returned response text, a raised
`RateLimitError`, or a raised generic `Exception` (message attached). -/
inductive LLMResult
  | ok (response : String)
  | rateLimitError (message : String)
  | error (message : String)
deriving DecidableEq

/-- Message of the `RateLimitError` raised on exhaustion
(base_agent.py lines 174-177). -/
def rateLimitMessage (maxRetries : ℕ) : String :=
  "API rate limit exceeded. Please wait a moment and try again. " ++
    "The system attempted " ++ toString (maxRetries + 1) ++
    " times with exponential backoff."

/-- Final raise after the loop exits with a stored `last_exception`
(base_agent.py lines 160-179): `RateLimitError` when the raw message
contains "429" or its lowering contains "resource exhausted",
otherwise a generic wrapped `Exception`. -/
def finalRaise (maxRetries : ℕ) (lastErr : String) : LLMResult :=
  if containsSub lastErr "429" || containsSub (lowerStr lastErr) "resource exhausted" then
    LLMResult.rateLimitError (rateLimitMessage maxRetries)
  else
    LLMResult.error ("Failed to get response from LLM: " ++ lastErr)

/-- Retry loop of `_call_llm` (base_agent.py lines 67-158).
`call n` is the outcome of `self.llm.invoke` on attempt `n`
(`Except.error msg` models a raised exception with message `msg`).
`fuel` is the number of attempts remaining after the current one, so
the loop starts with `fuel = MAX_RETRIES` at `attempt = 0`; `fuel = 0`
corresponds to `attempt >= MAX_RETRIES` on line 142.  Returns the
result, the number of attempts performed, and the list of pre-jitter
delays slept (line 146: `delay = min(retry_delay, MAX_RETRY_DELAY)`;
line 158: `retry_delay *= RETRY_BACKOFF_MULTIPLIER`). -/
def callLLMGo (call : ℕ → Except String String) (maxRetries : ℕ)
    (maxDelay mult : ℚ) : ℕ → ℕ → ℚ → List ℚ → LLMResult × ℕ × List ℚ
  | 0, attempt, _, sleeps =>
    match call attempt with
    | Except.ok text => (LLMResult.ok text, attempt + 1, sleeps)
    | Except.error msg => (finalRaise maxRetries msg, attempt + 1, sleeps)
  | fuel + 1, attempt, retryDelay, sleeps =>
    match call attempt with
    | Except.ok text => (LLMResult.ok text, attempt + 1, sleeps)
    | Except.error msg =>
      if isRetryable msg then
        callLLMGo call maxRetries maxDelay mult fuel (attempt + 1)
          (retryDelay * mult) (sleeps ++ [min retryDelay maxDelay])
      else
        (finalRaise maxRetries msg, attempt + 1, sleeps)

/-- `BaseAgent._call_llm` with configuration parameters
`MAX_RETRIES`, `INITIAL_RETRY_DELAY`, `MAX_RETRY_DELAY`,
`RETRY_BACKOFF_MULTIPLIER` (imported from the config module):
`last_exception = None; retry_delay = INITIAL_RETRY_DELAY;
for attempt in range(MAX_RETRIES + 1): ...`. -/
def callLLM (call : ℕ → Except String String) (maxRetries : ℕ)
    (d0 maxDelay mult : ℚ) : LLMResult × ℕ × List ℚ :=
  callLLMGo call maxRetries maxDelay mult maxRetries 0 d0 []

/-- Jitter added before sleeping (base_agent.py line 147:
`jitter = random.uniform(0, delay * 0.1)`), modelled as `r * (delay * 0.1)`
for a random coefficient `r` in `[0, 1]`. -/
def jitterOf (r delayN : ℚ) : ℚ := r * (delayN * (1 / 10))

/-- Modelled from the spec: the transience-marker predicate of spec
section 4.1 as the claims read it, for comparison with the code's
`isRetryable`.  Markers: rate limiting (quota exceeded /
resource exhausted / 429 / rate limit / too many requests) or other
transience (service unavailable / any 5xx status code / timeout /
deadline exceeded).  The concrete classification code lives in
`BaseAgent._call_llm`; this definition follows the spec wording. -/
def has5xx : List Char → Bool
  | c :: a :: b :: rest =>
      (c == '5' && a.isDigit && b.isDigit) || has5xx (a :: b :: rest)
  | _ => false

/-- Modelled from the spec: see `has5xx`; the full spec-worded
transience marker test on a raw message. -/
def specTransientMarker (msg : String) : Bool :=
  let l := lowerStr msg
  containsSub l "quota exceeded" ||
  containsSub l "resource exhausted" ||
  containsSub l "429" ||
  containsSub l "rate limit" ||
  containsSub l "too many requests" ||
  containsSub l "service unavailable" ||
  has5xx l.data ||
  containsSub l "timeout" ||
  containsSub l "deadline exceeded"

/- ### Workflow state (orchestrator.py, TravelAgentState) -/

/-- TypedDict `TravelAgentState` (orchestrator.py lines 9-20).
`conversation_history` entries are (role, content) pairs. -/
structure WorkflowState where
  user_query : String
  conversation_history : List (String × String)
  plan : String
  research_tasks : String
  research_results : String
  final_itinerary : String
  validation : String
  status : String
  current_agent : String
  iteration : ℕ
deriving DecidableEq

/-- Dictionary returned by an agent's `execute` (a subset of the keys
`plan`, `research_tasks`, `research_results`, `final_itinerary`,
`validation`, `status`, `agent`); absent keys are `none`. -/
structure AgentOutput where
  plan : Option String := none
  research_tasks : Option String := none
  research_results : Option String := none
  final_itinerary : Option String := none
  validation : Option String := none
  status : Option String := none
  agent : Option String := none
deriving DecidableEq

/- ### Agent prompts (success path; `llm` maps the prompt passed to
`self._call_llm` to the returned response text) -/

/-- Context built by `PlannerAgent.execute` (planner_agent.py line 50):
last five history entries joined as "role: content" lines. -/
def plannerContext (history : List (String × String)) : String :=
  String.intercalate "\n"
    ((history.drop (history.length - 5)).map (fun m => m.1 ++ ": " ++ m.2))

/-- Planning prompt of `PlannerAgent.execute` (planner_agent.py
lines 59-72). -/
def plannerPrompt (context userQuery : String) : String :=
  "Based on the following conversation, create a detailed travel plan:\n\n" ++
  context ++ "\n\nCurrent Request: " ++ userQuery ++
  "\n\nCreate a comprehensive travel plan including:\n" ++
  "1. Trip overview and summary\n2. Day-by-day itinerary\n" ++
  "3. Research tasks needed (flights, hotels, activities, restaurants)\n" ++
  "4. Budget estimates\n5. Recommendations\n\n" ++
  "Format your response clearly with sections."

/-- Research-task extraction prompt of `PlannerAgent.execute`
(planner_agent.py lines 91-101). -/
def plannerResearchPrompt (plan : String) : String :=
  "From this travel plan, extract a list of specific research tasks needed:\n\n" ++
  plan ++
  "\n\nList each research task as a separate item. For example:\n" ++
  "- Research flights from [origin] to [destination] for [dates]\n" ++
  "- Research hotels in [location] for [dates]\n" ++
  "- Research restaurants in [location] with [preferences]\n" ++
  "- Research activities/attractions in [location]\n\n" ++
  "Output only the list of research tasks, one per line."

/-- Research prompt of `ResearcherAgent.execute` (researcher_agent.py
lines 70-89). -/
def researcherPrompt (plan researchTasks userQuery : String) : String :=
  "Based on the travel plan and research tasks, provide detailed research results:\n\n" ++
  "Travel Plan:\n" ++ plan ++ "\n\nResearch Tasks:\n" ++ researchTasks ++
  "\n\nUser Query:\n" ++ userQuery ++
  "\n\nFor each research task, provide:\n" ++
  "1. Multiple options (at least 2-3 per category)\n" ++
  "2. Prices and availability\n3. Ratings and reviews\n" ++
  "4. Pros and cons\n5. Recommendations\n" ++
  "6. Booking information (websites, contact info)\n\n" ++
  "Format your response clearly with sections for each research category " ++
  "(flights, hotels, activities, restaurants, etc.)."

/-- Synthesis prompt of `ExecutorAgent.execute` (executor_agent.py
lines 51-84); static instruction text abbreviated to its section
headers, with every interpolated state field kept. -/
def executorPrompt (plan researchResults userQuery : String) : String :=
  "Based on the travel plan and research results, create a final, executable travel itinerary:\n\n" ++
  "Travel Plan:\n" ++ plan ++ "\n\nResearch Results:\n" ++ researchResults ++
  "\n\nUser Query:\n" ++ userQuery ++
  "\n\nCreate a comprehensive final travel itinerary that includes:\n" ++
  "1. Complete day-by-day schedule with specific times\n" ++
  "2. Specific recommendations (hotels, restaurants, activities) with details\n" ++
  "3. Booking information and links\n4. Budget breakdown with actual prices\n" ++
  "5. Travel tips and important reminders\n6. Packing list suggestions\n" ++
  "7. Emergency contacts and useful information\n" ++
  "8. Alternative options in case of changes\n\n" ++
  "9. **Next Steps for Enhancement** (REQUIRED - always include this section)\n\n" ++
  "Make this a complete, ready-to-use travel guide with clear next steps for improvement."

/-- Validation prompt of `ValidatorAgent.execute` (validator_agent.py
lines 66-94); static instruction text abbreviated to its section
headers, with every interpolated state field kept. -/
def validatorPrompt (contentToValidate userQuery : String) : String :=
  "Review and validate this travel plan/itinerary:\n\n" ++
  contentToValidate ++ "\n\nOriginal User Query:\n" ++ userQuery ++
  "\n\nPlease provide a comprehensive validation that ALWAYS includes:\n\n" ++
  "1. **Validation Status**: Overall assessment (excellent/good/needs improvement)\n" ++
  "2. **Issues Found**: Any problems, inconsistencies, or missing information\n" ++
  "3. **Suggestions for Improvement**: Specific ways to enhance the plan\n" ++
  "4. **Next Steps for Improvement** (REQUIRED - always include this section)\n\n" ++
  "Format your response with clear sections, especially highlighting the " ++
  "\"Next Steps for Improvement\" section."

/- ### Agent execute functions (success path).  Each returns the
dictionary of `execute` together with the list of prompts sent through
`self._call_llm` (so that the number of external calls is visible). -/

/-- `PlannerAgent.execute` (planner_agent.py lines 34-130), success
path: two wrapper calls, returns plan, research tasks and
`status = "plan_created"`. -/
def plannerExecute (llm : String → String) (state : WorkflowState) :
    AgentOutput × List String :=
  let context := plannerContext state.conversation_history
  let prompt := plannerPrompt context state.user_query
  let plan := llm prompt
  let researchPrompt2 := plannerResearchPrompt plan
  let research_tasks := llm researchPrompt2
  ({ plan := some plan, research_tasks := some research_tasks,
     status := some "plan_created", agent := some "Planner" },
   [prompt, researchPrompt2])

/-- `ResearcherAgent.execute` (researcher_agent.py lines 35-107):
short-circuits when `research_tasks` is empty (`if not research_tasks`,
line 50), otherwise one wrapper call. -/
def researcherExecute (llm : String → String) (state : WorkflowState) :
    AgentOutput × List String :=
  if state.research_tasks = "" then
    ({ research_results := some "No research tasks provided.",
       status := some "no_tasks", agent := some "Researcher" }, [])
  else
    let prompt := researcherPrompt state.plan state.research_tasks state.user_query
    ({ research_results := some (llm prompt),
       status := some "research_completed", agent := some "Researcher" },
     [prompt])

/-- `ExecutorAgent.execute` (executor_agent.py lines 36-102): one
wrapper call, no short-circuit. -/
def executorExecute (llm : String → String) (state : WorkflowState) :
    AgentOutput × List String :=
  let prompt := executorPrompt state.plan state.research_results state.user_query
  ({ final_itinerary := some (llm prompt),
     status := some "execution_completed", agent := some "Executor" },
   [prompt])

/-- `ValidatorAgent.execute` (validator_agent.py lines 36-112):
`content_to_validate = final_itinerary if final_itinerary else plan`
(line 44); short-circuits when the chosen content is empty (line 53),
otherwise one wrapper call. -/
def validatorExecute (llm : String → String) (state : WorkflowState) :
    AgentOutput × List String :=
  let content := if state.final_itinerary ≠ "" then state.final_itinerary else state.plan
  if content = "" then
    ({ validation := some "No content to validate.",
       status := some "no_content", agent := some "Validator" }, [])
  else
    let prompt := validatorPrompt content state.user_query
    ({ validation := some (llm prompt),
       status := some "validation_completed", agent := some "Validator" },
     [prompt])

/- ### Orchestrator (orchestrator.py) -/

/-- Partial state update returned by an orchestrator node; absent keys
are `none`.  LangGraph merges the returned dictionary into the
accumulated state, key by key. -/
structure NodeUpdate where
  user_query : Option String := none
  conversation_history : Option (List (String × String)) := none
  plan : Option String := none
  research_tasks : Option String := none
  research_results : Option String := none
  final_itinerary : Option String := none
  validation : Option String := none
  status : Option String := none
  current_agent : Option String := none
  iteration : Option ℕ := none
deriving DecidableEq

/-- LangGraph merge of a node's partial update into the accumulated
state: every key present in the update overwrites the state's value,
every absent key is kept. -/
def applyUpdate (s : WorkflowState) (u : NodeUpdate) : WorkflowState :=
  { user_query := u.user_query.getD s.user_query,
    conversation_history := u.conversation_history.getD s.conversation_history,
    plan := u.plan.getD s.plan,
    research_tasks := u.research_tasks.getD s.research_tasks,
    research_results := u.research_results.getD s.research_results,
    final_itinerary := u.final_itinerary.getD s.final_itinerary,
    validation := u.validation.getD s.validation,
    status := u.status.getD s.status,
    current_agent := u.current_agent.getD s.current_agent,
    iteration := u.iteration.getD s.iteration }

/-- `TravelAgentOrchestrator._planner_node` (orchestrator.py
lines 55-74). -/
def plannerNode (llm : String → String) (state : WorkflowState) : NodeUpdate :=
  let result := (plannerExecute llm state).1
  { plan := some (result.plan.getD ""),
    research_tasks := some (result.research_tasks.getD ""),
    status := some (result.status.getD ""),
    current_agent := some "planner",
    iteration := some (state.iteration + 1) }

/-- `TravelAgentOrchestrator._researcher_node` (orchestrator.py
lines 76-94). -/
def researcherNode (llm : String → String) (state : WorkflowState) : NodeUpdate :=
  let result := (researcherExecute llm state).1
  { research_results := some (result.research_results.getD ""),
    status := some (result.status.getD ""),
    current_agent := some "researcher",
    iteration := some (state.iteration + 1) }

/-- `TravelAgentOrchestrator._executor_node` (orchestrator.py
lines 96-114). -/
def executorNode (llm : String → String) (state : WorkflowState) : NodeUpdate :=
  let result := (executorExecute llm state).1
  { final_itinerary := some (result.final_itinerary.getD ""),
    status := some (result.status.getD ""),
    current_agent := some "executor",
    iteration := some (state.iteration + 1) }

/-- `TravelAgentOrchestrator._validator_node` (orchestrator.py
lines 116-134). -/
def validatorNode (llm : String → String) (state : WorkflowState) : NodeUpdate :=
  let result := (validatorExecute llm state).1
  { validation := some (result.validation.getD ""),
    status := some (result.status.getD ""),
    current_agent := some "validator",
    iteration := some (state.iteration + 1) }

/-- Initial state built by `process_query` (orchestrator.py
lines 150-161). -/
def initialState (userQuery : String) (history : List (String × String)) :
    WorkflowState :=
  { user_query := userQuery, conversation_history := history,
    plan := "", research_tasks := "", research_results := "",
    final_itinerary := "", validation := "",
    status := "initialized", current_agent := "", iteration := 0 }

/-- `TravelAgentOrchestrator.process_query` (orchestrator.py
lines 136-188), success path: the compiled graph runs the four nodes
in the fixed order planner, researcher, executor, validator
(edges added in `_build_graph`, lines 46-51), merging each partial
update into the accumulated state. -/
def processQuery (llm : String → String) (userQuery : String)
    (history : List (String × String)) : WorkflowState :=
  let s0 := initialState userQuery history
  let s1 := applyUpdate s0 (plannerNode llm s0)
  let s2 := applyUpdate s1 (researcherNode llm s1)
  let s3 := applyUpdate s2 (executorNode llm s2)
  applyUpdate s3 (validatorNode llm s3)

/-- Accumulated state after the planner node has been merged. -/
def stateAfterPlanner (llm : String → String) (userQuery : String)
    (history : List (String × String)) : WorkflowState :=
  applyUpdate (initialState userQuery history)
    (plannerNode llm (initialState userQuery history))

/-- Accumulated state after the researcher node has been merged. -/
def stateAfterResearcher (llm : String → String) (userQuery : String)
    (history : List (String × String)) : WorkflowState :=
  applyUpdate (stateAfterPlanner llm userQuery history)
    (researcherNode llm (stateAfterPlanner llm userQuery history))

/-- Accumulated state after the executor node has been merged. -/
def stateAfterExecutor (llm : String → String) (userQuery : String)
    (history : List (String × String)) : WorkflowState :=
  applyUpdate (stateAfterResearcher llm userQuery history)
    (executorNode llm (stateAfterResearcher llm userQuery history))

/- ### Background task bridge (app.py) -/

/-- Message placed on the result queue by
`process_query_in_background` (app.py lines 163-189): a success
payload carrying the workflow result, or an error message. -/
inductive QueueMsg
  | success (result : WorkflowState)
  | failure (message : String)
deriving DecidableEq

/-- Session state of the bridge: `processing_thread` existence and
liveness, the thread-safe result queue, the `processing` flag, and the
drained result or error slots.  `spawned` counts worker threads
started, to make the one-in-flight guarantee observable. -/
structure BridgeState where
  workerExists : Bool
  workerAlive : Bool
  queue : List QueueMsg
  processing : Bool
  processingResult : Option WorkflowState
  processingError : Option String
  spawned : ℕ
deriving DecidableEq

/-- Fresh session state (app.py lines 133-149): no thread, empty
queue, not processing. -/
def initBridge : BridgeState :=
  { workerExists := false, workerAlive := false, queue := [],
    processing := false, processingResult := none,
    processingError := none, spawned := 0 }

/-- Events on one bridge instance: a chat submission (app.py
lines 546-570), the queue poll at the top of `main` (lines 313-324),
and the asynchronous completion of the worker thread, which puts its
terminal message on the queue and terminates (lines 167-189). -/
inductive BridgeEvent
  | submit (query : String)
  | drain
  | workerFinish (msg : QueueMsg)

/-- One step of the bridge.  The returned Bool is true when the
submission was rejected with the "Another query is already being
processed" warning (app.py lines 567-570).  A submission spawns a
worker exactly when `processing_thread is None or not
processing_thread.is_alive()` (line 547). -/
def bridgeStep (s : BridgeState) (ev : BridgeEvent) : BridgeState × Bool :=
  match ev with
  | BridgeEvent.submit _ =>
    if !s.workerExists || !s.workerAlive then
      ({ s with
          processing := true, workerExists := true,
          workerAlive := true, spawned := s.spawned + 1 }, false)
    else
      (s, true)
  | BridgeEvent.drain =>
    match s.queue with
    | [] => (s, false)
    | QueueMsg.success r :: rest =>
      ({ s with
          queue := rest, processingResult := some r,
          processing := false }, false)
    | QueueMsg.failure m :: rest =>
      ({ s with
          queue := rest, processingError := some m,
          processing := false }, false)
  | BridgeEvent.workerFinish m =>
    if s.workerAlive then
      ({ s with
          queue := s.queue ++ [m], workerAlive := false }, false)
    else
      (s, false)

/-- Run a sequence of bridge events from a state. -/
def runBridge (s : BridgeState) : List BridgeEvent → BridgeState
  | [] => s
  | ev :: rest => runBridge (bridgeStep s ev).1 rest

/- ### Helper lemmas -/

theorem isRateLimit_isRetryable (msg : String) (h : isRateLimit msg = true) :
    isRetryable msg = true := by
  unfold isRetryable isRetryableStr
  unfold isRateLimit at h
  rw [h]
  rfl

theorem strStartsWith_map (f : Char → Char) :
    ∀ hay pat : List Char, strStartsWith hay pat = true →
      strStartsWith (hay.map f) (pat.map f) = true
  | _, [], _ => by simp [strStartsWith]
  | [], _ :: _, h => by simp [strStartsWith] at h
  | a :: as, b :: bs, h => by
      simp only [strStartsWith, Bool.and_eq_true, beq_iff_eq] at h
      simp only [List.map_cons, strStartsWith, Bool.and_eq_true, beq_iff_eq]
      exact ⟨by rw [h.1], strStartsWith_map f as bs h.2⟩

theorem hasSub_map (f : Char → Char) :
    ∀ hay pat : List Char, hasSub hay pat = true →
      hasSub (hay.map f) (pat.map f) = true
  | [], pat, h => by
      simp only [hasSub] at h ⊢
      exact strStartsWith_map f [] pat h
  | a :: rest, pat, h => by
      simp only [hasSub, Bool.or_eq_true] at h ⊢
      cases h with
      | inl h1 =>
          exact Or.inl (strStartsWith_map f (a :: rest) pat h1)
      | inr h2 =>
          exact Or.inr (hasSub_map f rest pat h2)

theorem containsSub_lower_of_429 (s : String) (h : containsSub s "429" = true) :
    containsSub (lowerStr s) "429" = true := by
  unfold containsSub at h ⊢
  have hmap := hasSub_map Char.toLower s.data ("429".data) h
  rw [show ("429".data.map Char.toLower) = "429".data from by decide] at hmap
  exact hmap

theorem finalRaise_of_not_retryable (maxRetries : ℕ) (msg : String)
    (h : isRetryable msg = false) :
    finalRaise maxRetries msg =
      LLMResult.error ("Failed to get response from LLM: " ++ msg) := by
  have hB : containsSub (lowerStr msg) "resource exhausted" = false := by
    cases hc : containsSub (lowerStr msg) "resource exhausted" with
    | false => rfl
    | true =>
        have ht : isRetryable msg = true := by
          unfold isRetryable isRetryableStr isRateLimitStr
          rw [hc]
          simp
        rw [ht] at h
        exact absurd h (by decide)
  have hA : containsSub msg "429" = false := by
    cases hc : containsSub msg "429" with
    | false => rfl
    | true =>
        have hlow := containsSub_lower_of_429 msg hc
        have ht : isRetryable msg = true := by
          unfold isRetryable isRetryableStr isRateLimitStr
          rw [hlow]
          simp
        rw [ht] at h
        exact absurd h (by decide)
  unfold finalRaise
  rw [hA, hB]
  rfl

theorem callLLMGo_allFail (call : ℕ → Except String String) (e : ℕ → String)
    (maxRetries : ℕ) (maxD mult : ℚ)
    (hfail : ∀ n, call n = Except.error (e n))
    (hret : ∀ n, isRetryable (e n) = true) :
    ∀ (fuel attempt : ℕ) (rd : ℚ) (sleeps : List ℚ),
      callLLMGo call maxRetries maxD mult fuel attempt rd sleeps =
        (finalRaise maxRetries (e (attempt + fuel)), attempt + fuel + 1,
          sleeps ++ (List.range fuel).map (fun i => min (rd * mult ^ i) maxD)) := by
  intro fuel
  induction fuel with
  | zero =>
      intro attempt rd sleeps
      simp [callLLMGo, hfail]
  | succ f ih =>
      intro attempt rd sleeps
      have hstep :
          callLLMGo call maxRetries maxD mult (f + 1) attempt rd sleeps =
            callLLMGo call maxRetries maxD mult f (attempt + 1) (rd * mult)
              (sleeps ++ [min rd maxD]) := by
        simp [callLLMGo, hfail attempt, hret attempt]
      rw [hstep, ih]
      have harith : attempt + 1 + f = attempt + (f + 1) := by omega
      rw [harith]
      simp only [Prod.mk.injEq, true_and]
      rw [List.append_assoc]
      congr 1
      simp only [List.range_succ_eq_map, List.map_cons, List.map_map,
        List.singleton_append, pow_zero, mul_one]
      congr 1
      apply List.map_congr_left
      intro i _
      simp only [Function.comp_apply]
      congr 1
      rw [pow_succ]
      ring

theorem callLLMGo_attempts_ge (call : ℕ → Except String String)
    (maxRetries : ℕ) (maxD mult : ℚ) :
    ∀ (fuel attempt : ℕ) (rd : ℚ) (sleeps : List ℚ),
      attempt + 1 ≤ (callLLMGo call maxRetries maxD mult fuel attempt rd sleeps).2.1 := by
  intro fuel
  induction fuel with
  | zero =>
      intro attempt rd sleeps
      cases hc : call attempt <;> simp [callLLMGo, hc]
  | succ f ih =>
      intro attempt rd sleeps
      cases hc : call attempt with
      | ok text => simp [callLLMGo, hc]
      | error msg =>
          by_cases hr : isRetryable msg = true
          · have hrec := ih (attempt + 1) (rd * mult) (sleeps ++ [min rd maxD])
            have hstep :
                callLLMGo call maxRetries maxD mult (f + 1) attempt rd sleeps =
                  callLLMGo call maxRetries maxD mult f (attempt + 1) (rd * mult)
                    (sleeps ++ [min rd maxD]) := by
              simp [callLLMGo, hc, hr]
            rw [hstep]
            omega
          · simp [callLLMGo, hc, hr]

theorem validatorExecute_status (llm : String → String) (state : WorkflowState) :
    (validatorExecute llm state).1.status = some "validation_completed" ∨
    (validatorExecute llm state).1.status = some "no_content" := by
  unfold validatorExecute
  by_cases h :
      (if state.final_itinerary ≠ "" then state.final_itinerary else state.plan) = ""
  · rw [if_pos h]; right; rfl
  · rw [if_neg h]; left; rfl

/- ### Claim theorems -/

/-- Claim C1, counterexample: when every attempt fails with the
message "quota exceeded" — which contains a rate-limit marker, so the
claim demands a `RateLimitError` — the wrapper does perform
`MAX_RETRIES + 1` attempts (here 4), but raises the generic wrapped
`Exception`, not `RateLimitError`, because the final re-classification
on base_agent.py line 173 only looks for "429" and
"resource exhausted". -/
theorem c1_quota_exceeded_generic_raise :
    isRateLimit "quota exceeded" = true ∧
    (callLLM (fun _ => Except.error "quota exceeded") 3 2 60 2).2.1 = 3 + 1 ∧
    ∀ m, (callLLM (fun _ => Except.error "quota exceeded") 3 2 60 2).1 ≠
      LLMResult.rateLimitError m := by
  refine ⟨by decide, by decide, ?_⟩
  intro m h
  have hres : (callLLM (fun _ => Except.error "quota exceeded") 3 2 60 2).1 =
      LLMResult.error "Failed to get response from LLM: quota exceeded" := by decide
  rw [hres] at h
  exact LLMResult.noConfusion h

/-- Claim C1 (amended): if every attempt of `_call_llm` fails with a
rate-limit-marker error, the wrapper performs exactly `MAX_RETRIES + 1`
attempts; it raises `RateLimitError` (message citing the attempt
count) when the final error's raw message contains "429" or its
lowering contains "resource exhausted", and otherwise (markers
"quota exceeded", "rate limit", "too many requests" only) raises the
generic wrapped failure. -/
theorem c1_all_ratelimit_exhausts (call : ℕ → Except String String)
    (e : ℕ → String) (maxRetries : ℕ) (d0 maxD mult : ℚ)
    (hfail : ∀ n, call n = Except.error (e n))
    (hrl : ∀ n, isRateLimit (e n) = true) :
    (callLLM call maxRetries d0 maxD mult).2.1 = maxRetries + 1 ∧
    ((containsSub (e maxRetries) "429" = true ∨
        containsSub (lowerStr (e maxRetries)) "resource exhausted" = true) →
      (callLLM call maxRetries d0 maxD mult).1 =
        LLMResult.rateLimitError (rateLimitMessage maxRetries)) ∧
    (containsSub (e maxRetries) "429" = false →
      containsSub (lowerStr (e maxRetries)) "resource exhausted" = false →
      (callLLM call maxRetries d0 maxD mult).1 =
        LLMResult.error ("Failed to get response from LLM: " ++ e maxRetries)) := by
  have hret : ∀ n, isRetryable (e n) = true :=
    fun n => isRateLimit_isRetryable _ (hrl n)
  have h := callLLMGo_allFail call e maxRetries maxD mult hfail hret maxRetries 0 d0 []
  unfold callLLM
  rw [h]
  simp only [Nat.zero_add]
  refine ⟨trivial, ?_, ?_⟩
  · intro hcond
    unfold finalRaise
    rw [if_pos]
    cases hcond with
    | inl h1 => rw [h1]; rfl
    | inr h2 => rw [h2]; simp
  · intro h1 h2
    unfold finalRaise
    rw [h1, h2]
    rfl

/-- Witness for `c1_all_ratelimit_exhausts` at the all-attempts
"429" error with `MAX_RETRIES = 2`. -/
theorem c1_all_ratelimit_exhausts_witness :
    (callLLM (fun _ => Except.error "429") 2 1 10 2).2.1 = 2 + 1 ∧
    (callLLM (fun _ => Except.error "429") 2 1 10 2).1 =
      LLMResult.rateLimitError (rateLimitMessage 2) := by
  have h := c1_all_ratelimit_exhausts (fun _ => Except.error "429")
    (fun _ => "429") 2 1 10 2 (fun _ => rfl)
    (fun _ => (by decide : isRateLimit "429" = true))
  exact ⟨h.1, h.2.1 (Or.inl (by decide))⟩

/-- Claim C2, counterexample: on a first-attempt fatal error with
message "invalid api key", the wrapper performs 1 attempt and does not
sleep, but the error surfaced is a new generic `Exception` whose
message is the wrapped "Failed to get response from LLM: ..." text,
not the original error re-raised (base_agent.py line 179). -/
theorem c2_fatal_error_is_wrapped :
    isRetryable "invalid api key" = false ∧
    callLLM (fun _ => Except.error "invalid api key") 3 2 60 2 =
      (LLMResult.error ("Failed to get response from LLM: " ++ "invalid api key"),
        1, []) ∧
    ("Failed to get response from LLM: " ++ "invalid api key") ≠
      "invalid api key" := by
  refine ⟨by decide, by decide, by decide⟩

/-- Claim C2 (amended): if the first attempt fails with an error
matching no rate-limit and no transience marker, `_call_llm` performs
exactly 1 attempt, does not sleep, and raises a generic wrapped
failure whose message embeds the original error's message (the
original exception is converted, not re-raised as-is). -/
theorem c2_fatal_first_attempt (call : ℕ → Except String String)
    (e0 : String) (maxRetries : ℕ) (d0 maxD mult : ℚ)
    (h0 : call 0 = Except.error e0) (hfatal : isRetryable e0 = false) :
    callLLM call maxRetries d0 maxD mult =
      (LLMResult.error ("Failed to get response from LLM: " ++ e0), 1, []) := by
  have hfr := finalRaise_of_not_retryable maxRetries e0 hfatal
  cases maxRetries with
  | zero =>
      unfold callLLM
      simp [callLLMGo, h0, hfr]
  | succ f =>
      unfold callLLM
      simp [callLLMGo, h0, hfatal, hfr]

/-- Witness for `c2_fatal_first_attempt` at the fatal error
"bad request" with `MAX_RETRIES = 3`. -/
theorem c2_fatal_first_attempt_witness :
    callLLM (fun _ => Except.error "bad request") 3 2 60 2 =
      (LLMResult.error ("Failed to get response from LLM: " ++ "bad request"),
        1, []) :=
  c2_fatal_first_attempt (fun _ => Except.error "bad request") "bad request"
    3 2 60 2 rfl (by decide)

/-- Claim C5, counterexample: the error message "service unavailable"
carries a transience marker under the spec's marker list
(service-unavailable), so the claim requires it to be retried, but the
code's classifier (base_agent.py lines 114-120) matches only the
literal substrings "503"/"500" and treats it as fatal: the wrapper
performs exactly 1 attempt. -/
theorem c5_service_unavailable_fatal :
    specTransientMarker "service unavailable" = true ∧
    isRetryable "service unavailable" = false ∧
    (callLLM (fun _ => Except.error "service unavailable") 3 2 60 2).2.1 = 1 := by
  refine ⟨by decide, by decide, by decide⟩

/-- Claim C5 (amended): with at least one retry configured, an error
raised on the first attempt triggers a retry (a second attempt is
performed) if and only if the code's classifier matches it: the
lowered message contains one of "429", "resource exhausted",
"quota exceeded", "rate limit", "too many requests", "503", "500",
"timeout", "deadline exceeded"; every other error is fatal and not
retried. -/
theorem c5_retry_iff_marker (call : ℕ → Except String String)
    (e0 : String) (maxRetries : ℕ) (d0 maxD mult : ℚ)
    (h0 : call 0 = Except.error e0) (hmr : 1 ≤ maxRetries) :
    (2 ≤ (callLLM call maxRetries d0 maxD mult).2.1 ↔
      isRetryable e0 = true) := by
  cases maxRetries with
  | zero => omega
  | succ f =>
      unfold callLLM
      by_cases hr : isRetryable e0 = true
      · have hstep :
            callLLMGo call (f + 1) maxD mult (f + 1) 0 d0 [] =
              callLLMGo call (f + 1) maxD mult f 1 (d0 * mult) [min d0 maxD] := by
          simp [callLLMGo, h0, hr]
        rw [hstep]
        have := callLLMGo_attempts_ge call (f + 1) maxD mult f 1 (d0 * mult)
          [min d0 maxD]
        constructor
        · intro _; exact hr
        · intro _; omega
      · have hstep :
            callLLMGo call (f + 1) maxD mult (f + 1) 0 d0 [] =
              (finalRaise (f + 1) e0, 1, []) := by
          simp [callLLMGo, h0, hr]
        rw [hstep]
        simp [hr]

/-- Witness for `c5_retry_iff_marker` at the retryable error
"deadline exceeded" with `MAX_RETRIES = 2`. -/
theorem c5_retry_iff_marker_witness :
    (2 ≤ (callLLM (fun _ => Except.error "deadline exceeded") 2 1 10 2).2.1 ↔
      isRetryable "deadline exceeded" = true) :=
  c5_retry_iff_marker (fun _ => Except.error "deadline exceeded")
    "deadline exceeded" 2 1 10 2 rfl (by norm_num)

/-- Claim C3 (confirmed): on a run in which every attempt fails with a
retryable error, the sequence of pre-jitter delays slept by `_call_llm`
is exactly `min(INITIAL_RETRY_DELAY * RETRY_BACKOFF_MULTIPLIER^n,
MAX_RETRY_DELAY)` for retry attempt `n`; that formula is non-decreasing
in `n` (for a multiplier of at least 1 and non-negative initial delay)
and bounded by `MAX_RETRY_DELAY`, and the jitter `r * (delay(n) * 0.1)`
added before sleeping (for any random coefficient `r` in `[0, 1]`) lies
in `[0, 0.1 * delay(n)]`. -/
theorem c3_backoff_delays (call : ℕ → Except String String) (e : ℕ → String)
    (maxRetries : ℕ) (d0 maxD mult : ℚ)
    (hfail : ∀ n, call n = Except.error (e n))
    (hret : ∀ n, isRetryable (e n) = true)
    (hd0 : 0 ≤ d0) (hmult : 1 ≤ mult) (hmaxD : 0 ≤ maxD)
    (n : ℕ) (r : ℚ) (hr0 : 0 ≤ r) (hr1 : r ≤ 1) :
    (callLLM call maxRetries d0 maxD mult).2.2 =
      (List.range maxRetries).map (fun i => min (d0 * mult ^ i) maxD) ∧
    (∀ i j : ℕ, i ≤ j →
      min (d0 * mult ^ i) maxD ≤ min (d0 * mult ^ j) maxD) ∧
    min (d0 * mult ^ n) maxD ≤ maxD ∧
    0 ≤ jitterOf r (min (d0 * mult ^ n) maxD) ∧
    jitterOf r (min (d0 * mult ^ n) maxD) ≤
      (1 / 10) * min (d0 * mult ^ n) maxD := by
  have hpow : ∀ k : ℕ, (0 : ℚ) ≤ mult ^ k :=
    fun k => pow_nonneg (le_trans zero_le_one hmult) k
  have hdel : (0 : ℚ) ≤ min (d0 * mult ^ n) maxD :=
    le_min (mul_nonneg hd0 (hpow n)) hmaxD
  refine ⟨?_, ?_, min_le_right _ _, ?_, ?_⟩
  · have h := callLLMGo_allFail call e maxRetries maxD mult hfail hret
      maxRetries 0 d0 []
    unfold callLLM
    rw [h]
    simp
  · intro i j hij
    have : d0 * mult ^ i ≤ d0 * mult ^ j :=
      mul_le_mul_of_nonneg_left (pow_le_pow_right₀ hmult hij) hd0
    exact min_le_min this le_rfl
  · exact mul_nonneg hr0 (mul_nonneg hdel (by norm_num))
  · calc jitterOf r (min (d0 * mult ^ n) maxD) =
          r * (min (d0 * mult ^ n) maxD * (1 / 10)) := rfl
      _ ≤ 1 * (min (d0 * mult ^ n) maxD * (1 / 10)) :=
          mul_le_mul_of_nonneg_right hr1 (mul_nonneg hdel (by norm_num))
      _ = (1 / 10) * min (d0 * mult ^ n) maxD := by ring

/-- Witness for `c3_backoff_delays` at the all-attempts "timeout"
error, `MAX_RETRIES = 3`, `d0 = 2`, `maxDelay = 60`, `multiplier = 2`,
`n = 1`, `r = 1/2`. -/
theorem c3_backoff_delays_witness :
    (callLLM (fun _ => Except.error "timeout") 3 2 60 2).2.2 =
      (List.range 3).map (fun i => min ((2 : ℚ) * 2 ^ i) 60) ∧
    (∀ i j : ℕ, i ≤ j →
      min ((2 : ℚ) * 2 ^ i) 60 ≤ min ((2 : ℚ) * 2 ^ j) 60) ∧
    min ((2 : ℚ) * 2 ^ 1) 60 ≤ 60 ∧
    0 ≤ jitterOf (1 / 2) (min ((2 : ℚ) * 2 ^ 1) 60) ∧
    jitterOf (1 / 2) (min ((2 : ℚ) * 2 ^ 1) 60) ≤
      (1 / 10) * min ((2 : ℚ) * 2 ^ 1) 60 :=
  c3_backoff_delays (fun _ => Except.error "timeout") (fun _ => "timeout")
    3 2 60 2 (fun _ => rfl)
    (fun _ => (by decide : isRetryable "timeout" = true))
    (by norm_num) (by norm_num) (by norm_num) 1 (1 / 2)
    (by norm_num) (by norm_num)

/-- Claim C4 (confirmed): for every non-empty user query, when every
external call succeeds with non-empty text (so no stage
short-circuits), `process_query` returns a state with `iteration = 4`
(each of the four nodes adds exactly 1 to the initial 0), status
"validation_completed", and all four content fields populated by their
stages. -/
theorem c4_full_pipeline (llm : String → String) (userQuery : String)
    (history : List (String × String))
    (_hq : userQuery ≠ "") (hllm : ∀ p, llm p ≠ "") :
    (processQuery llm userQuery history).iteration = 4 ∧
    (processQuery llm userQuery history).status = "validation_completed" ∧
    (processQuery llm userQuery history).plan ≠ "" ∧
    (processQuery llm userQuery history).research_tasks ≠ "" ∧
    (processQuery llm userQuery history).research_results ≠ "" ∧
    (processQuery llm userQuery history).final_itinerary ≠ "" ∧
    (processQuery llm userQuery history).validation ≠ "" := by
  refine ⟨?_, ?_, ?_, ?_, ?_, ?_, ?_⟩ <;>
    simp [processQuery, initialState, applyUpdate, plannerNode, researcherNode,
      executorNode, validatorNode, plannerExecute, researcherExecute,
      executorExecute, validatorExecute, hllm]

/-- Witness for `c4_full_pipeline` with the constant oracle "x" and
query "plan a trip to Lisbon". -/
theorem c4_full_pipeline_witness :
    (processQuery (fun _ => "x") "plan a trip to Lisbon" []).iteration = 4 ∧
    (processQuery (fun _ => "x") "plan a trip to Lisbon" []).status =
      "validation_completed" ∧
    (processQuery (fun _ => "x") "plan a trip to Lisbon" []).plan ≠ "" ∧
    (processQuery (fun _ => "x") "plan a trip to Lisbon" []).research_tasks ≠ "" ∧
    (processQuery (fun _ => "x") "plan a trip to Lisbon" []).research_results ≠ "" ∧
    (processQuery (fun _ => "x") "plan a trip to Lisbon" []).final_itinerary ≠ "" ∧
    (processQuery (fun _ => "x") "plan a trip to Lisbon" []).validation ≠ "" :=
  c4_full_pipeline (fun _ => "x") "plan a trip to Lisbon" []
    (by decide) (fun _ => (by decide : ("x" : String) ≠ ""))

/-- Claim C6 (confirmed): whenever `research_tasks` is the empty
string, `ResearcherAgent.execute` returns the short-circuit dictionary
with `research_results = "No research tasks provided."` and
`status = "no_tasks"`, and issues zero external calls. -/
theorem c6_no_tasks_short_circuit (llm : String → String)
    (state : WorkflowState) (h : state.research_tasks = "") :
    researcherExecute llm state =
      ({ research_results := some "No research tasks provided.",
         status := some "no_tasks", agent := some "Researcher" }, []) := by
  simp [researcherExecute, h]

/-- Witness for `c6_no_tasks_short_circuit` at a state whose
`research_tasks` is empty. -/
theorem c6_no_tasks_short_circuit_witness :
    researcherExecute (fun _ => "y")
      ⟨"q", [], "some plan", "", "", "", "", "plan_created", "planner", 1⟩ =
      ({ research_results := some "No research tasks provided.",
         status := some "no_tasks", agent := some "Researcher" }, []) :=
  c6_no_tasks_short_circuit (fun _ => "y") _ rfl

/-- Claim C7 (confirmed): `ValidatorAgent.execute` validates
`final_itinerary` when it is non-empty, otherwise falls back to
`plan`; when both are empty it returns the short-circuit dictionary
with `validation = "No content to validate."` and
`status = "no_content"` and issues zero external calls. -/
theorem c7_validator_content_choice (llm : String → String)
    (state : WorkflowState) :
    validatorExecute llm state =
      if state.final_itinerary ≠ "" then
        ({ validation :=
             some (llm (validatorPrompt state.final_itinerary state.user_query)),
           status := some "validation_completed", agent := some "Validator" },
         [validatorPrompt state.final_itinerary state.user_query])
      else if state.plan ≠ "" then
        ({ validation :=
             some (llm (validatorPrompt state.plan state.user_query)),
           status := some "validation_completed", agent := some "Validator" },
         [validatorPrompt state.plan state.user_query])
      else
        ({ validation := some "No content to validate.",
           status := some "no_content", agent := some "Validator" }, []) := by
  by_cases h1 : state.final_itinerary = "" <;>
    by_cases h2 : state.plan = "" <;>
      simp [validatorExecute, h1, h2]

/-- Claim C8 (confirmed): no stage node ever writes `user_query` or
`conversation_history`; each node's partial update touches only its
own content fields plus `status`/`current_agent`/`iteration`; and over
a full pipeline run no later stage's update overwrites a field written
by an earlier stage. -/
theorem c8_frame_preservation (llm : String → String)
    (state : WorkflowState) (userQuery : String)
    (history : List (String × String)) :
    (plannerNode llm state).user_query = none ∧
    (plannerNode llm state).conversation_history = none ∧
    (plannerNode llm state).research_results = none ∧
    (plannerNode llm state).final_itinerary = none ∧
    (plannerNode llm state).validation = none ∧
    (researcherNode llm state).user_query = none ∧
    (researcherNode llm state).conversation_history = none ∧
    (researcherNode llm state).plan = none ∧
    (researcherNode llm state).research_tasks = none ∧
    (researcherNode llm state).final_itinerary = none ∧
    (researcherNode llm state).validation = none ∧
    (executorNode llm state).user_query = none ∧
    (executorNode llm state).conversation_history = none ∧
    (executorNode llm state).plan = none ∧
    (executorNode llm state).research_tasks = none ∧
    (executorNode llm state).research_results = none ∧
    (executorNode llm state).validation = none ∧
    (validatorNode llm state).user_query = none ∧
    (validatorNode llm state).conversation_history = none ∧
    (validatorNode llm state).plan = none ∧
    (validatorNode llm state).research_tasks = none ∧
    (validatorNode llm state).research_results = none ∧
    (validatorNode llm state).final_itinerary = none ∧
    (processQuery llm userQuery history).user_query = userQuery ∧
    (processQuery llm userQuery history).conversation_history = history ∧
    (processQuery llm userQuery history).plan =
      (stateAfterPlanner llm userQuery history).plan ∧
    (processQuery llm userQuery history).research_tasks =
      (stateAfterPlanner llm userQuery history).research_tasks ∧
    (processQuery llm userQuery history).research_results =
      (stateAfterResearcher llm userQuery history).research_results ∧
    (processQuery llm userQuery history).final_itinerary =
      (stateAfterExecutor llm userQuery history).final_itinerary := by
  refine ⟨rfl, rfl, rfl, rfl, rfl, rfl, rfl, rfl, rfl, rfl, rfl, rfl, rfl,
    rfl, rfl, rfl, rfl, rfl, rfl, rfl, rfl, rfl, rfl, rfl, rfl, rfl, rfl,
    rfl, rfl⟩

/-- Claim C10 (confirmed): every completed run of the pipeline ends
with the validator's status: the terminal `status` is either
"validation_completed" or "no_content", never an intermediate stage
status. -/
theorem c10_terminal_status (llm : String → String) (userQuery : String)
    (history : List (String × String)) :
    (processQuery llm userQuery history).status = "validation_completed" ∨
    (processQuery llm userQuery history).status = "no_content" := by
  have h := validatorExecute_status llm (stateAfterExecutor llm userQuery history)
  have hs : (processQuery llm userQuery history).status =
      ((validatorExecute llm
        (stateAfterExecutor llm userQuery history)).1.status).getD "" := rfl
  cases h with
  | inl h1 => left; rw [hs, h1]; rfl
  | inr h2 => right; rw [hs, h2]; rfl

/-- Claim C9, counterexample: on the trace submit, poll (queue still
empty), worker finishes (puts its terminal message and dies), submit —
the second submission spawns a second worker (`spawned = 2`) while the
first worker's result is still undrained in the queue, because the
guard in app.py line 547 tests thread liveness, not queue drain. -/
theorem c9_undrained_second_spawn :
    (runBridge initBridge
      [BridgeEvent.submit "first query", BridgeEvent.drain,
       BridgeEvent.workerFinish (QueueMsg.failure "boom"),
       BridgeEvent.submit "second query"]).spawned = 2 ∧
    (runBridge initBridge
      [BridgeEvent.submit "first query", BridgeEvent.drain,
       BridgeEvent.workerFinish (QueueMsg.failure "boom"),
       BridgeEvent.submit "second query"]).queue =
      [QueueMsg.failure "boom"] := by
  refine ⟨by decide, by decide⟩

/-- Claim C9 (amended): a submission while the prior worker thread is
still alive is rejected — the session state is unchanged, no second
worker is spawned, and the caller is told to wait; once the worker
thread has terminated (or none exists), a submission spawns a new
worker regardless of whether the prior result has been drained from
the queue. -/
theorem c9_single_flight_guard :
    (∀ (s : BridgeState) (q : String),
      s.workerExists = true → s.workerAlive = true →
      (bridgeStep s (BridgeEvent.submit q)).1 = s ∧
      (bridgeStep s (BridgeEvent.submit q)).2 = true) ∧
    (∀ (s : BridgeState) (q : String), s.workerAlive = false →
      (bridgeStep s (BridgeEvent.submit q)).1.spawned = s.spawned + 1 ∧
      (bridgeStep s (BridgeEvent.submit q)).2 = false) := by
  constructor
  · intro s q h1 h2
    constructor <;> simp [bridgeStep, h1, h2]
  · intro s q h1
    constructor <;> simp [bridgeStep, h1]

/-- Witness for `c9_single_flight_guard`: a live-worker state rejects
a submission unchanged; a dead-worker state with an undrained queue
spawns a second worker. -/
theorem c9_single_flight_guard_witness :
    (bridgeStep ⟨true, true, [], true, none, none, 1⟩
        (BridgeEvent.submit "q2")).1 = ⟨true, true, [], true, none, none, 1⟩ ∧
    (bridgeStep ⟨true, true, [], true, none, none, 1⟩
        (BridgeEvent.submit "q2")).2 = true ∧
    (bridgeStep ⟨true, false, [QueueMsg.failure "boom2"], false, none, none, 1⟩
        (BridgeEvent.submit "q3")).1.spawned = 1 + 1 := by
  refine ⟨?_, ?_, ?_⟩
  · exact (c9_single_flight_guard.1 _ "q2" rfl rfl).1
  · exact (c9_single_flight_guard.1 _ "q2" rfl rfl).2
  · exact (c9_single_flight_guard.2 _ "q3" rfl).1

end TravelAgent
